import Mathlib

/-!
# Notification examples: dependency injection and factory method

A shallow embedding of the two example programs of the repository,
`src/dependency/.go` and `src/factory-method/main.go`, and the properties
the specification states about them.

Modelling conventions.

* A Go `string` is a Lean `String`.
* A Go `error` result is an `Option GoError`: `none` is the nil error, and a
  non-nil error is observed through its `Error()` text.
* Side effects act on an explicit `World α`: the sequence of writes made to
  standard output, and a component `ext : α` standing for whatever state an
  implementation from outside the two files (a test double, say) keeps.  The
  two programs themselves only ever touch `stdout`.
* An interface value is its dynamic type together with its value: one
  constructor for each implementation the file declares, and a constructor
  `other` carrying the method of any further implementation.  Values of these
  Lean types are non-nil interface values whose methods return; the nil
  interface appears as `none` exactly where the source produces or tests it
  (the first result of `GetNotificationFactory`).
* No method of either file assigns to its receiver, so receivers are passed
  by value.
-/

/-- A non-nil Go `error`, observed through the text its `Error()` method returns. -/
structure GoError where
  /-- The text returned by the `Error()` method. -/
  Error : String
deriving DecidableEq, Repr

/-- The observable state: the writes made to standard output so far, oldest
first, and the state `ext` of implementations from outside the programs. -/
structure World (α : Type) where
  /-- The strings written to standard output, one entry for each write. -/
  stdout : List String
  /-- State owned by implementations that are not part of the two files. -/
  ext : α
deriving DecidableEq, Repr

/-- Forget the second component of the external state. -/
def World.lower {α β : Type} (w : World (α × β)) : World α :=
  ⟨w.stdout, w.ext.1⟩

/-- Put a second component next to the external state. -/
def World.lift {α β : Type} (w : World α) (b : β) : World (α × β) :=
  ⟨w.stdout, (w.ext, b)⟩

/-- The text `sub` occurs inside the text `s` as a contiguous block. -/
def occursIn (sub s : String) : Prop :=
  sub.data <:+: s.data

instance (sub s : String) : Decidable (occursIn sub s) :=
  inferInstanceAs (Decidable (sub.data <:+: s.data))

namespace fmt

/-- The part of Go's `fmt` formatting the programs use: the verb `%s` applied
to string operands, which copies the operand unchanged; every other character
of the format is copied as it is.  A `%s` without an operand gives
`%!s(MISSING)` and operands left over are reported in an `%!(EXTRA ...)`
block, as in Go.  Other verbs do not occur in the sources and are not
interpreted. -/
def format : List Char → List String → List Char
  | [], [] => []
  | [], a :: args =>
    ("%!(EXTRA " ++ ", ".intercalate ((a :: args).map ("string=" ++ ·)) ++ ")").data
  | '%' :: 's' :: rest, a :: args => a.data ++ format rest args
  | '%' :: 's' :: rest, [] => "%!s(MISSING)".data ++ format rest []
  | c :: rest, args => c :: format rest args

/-- Go's `fmt.Sprintf` on string operands. -/
def Sprintf (f : String) (args : List String) : String :=
  ⟨format f.data args⟩

/-- Go's `fmt.Printf` on string operands: one write of the formatted text to
standard output. -/
def Printf {α : Type} (f : String) (args : List String) (w : World α) : World α :=
  { w with stdout := w.stdout ++ [Sprintf f args] }

/-- Go's `fmt.Println`: the operands separated by blanks, then a newline, in
one write to standard output.  An `error` operand is printed as its `Error()`
text. -/
def Println {α : Type} (args : List String) (w : World α) : World α :=
  { w with stdout := w.stdout ++ [" ".intercalate args ++ "\n"] }

/-- Go's `fmt.Errorf` on string operands (no `%w`): an error whose text is the
formatted string. -/
def Errorf (f : String) (args : List String) : GoError :=
  ⟨Sprintf f args⟩

end fmt

/-! ## `src/dependency/.go` -/

namespace Dependency

/-- The struct `Email`. -/
structure Email where
  recipient : String
deriving DecidableEq, Repr

/-- The struct `SMS`. -/
structure SMS where
  phoneNumber : String
deriving DecidableEq, Repr

/-- The method `(e *Email) Send`. -/
def Email.Send {α : Type} (e : Email) (message : String) (w : World α) :
    Option GoError × World α :=
  (none, fmt.Printf "Sending email with message: %s, %s\n" [e.recipient, message] w)

/-- The method `(s *SMS) Send`. -/
def SMS.Send {α : Type} (s : SMS) (message : String) (w : World α) :
    Option GoError × World α :=
  (none, fmt.Printf "Sending SMS with message: %s, %s\n" [s.phoneNumber, message] w)

/-- A non-nil value of the interface `Notifier`: a pointer to an `Email`, a
pointer to an `SMS`, or any other implementation, given by its `Send`. -/
inductive Notifier (α : Type) where
  | email (e : Email)
  | sms (s : SMS)
  | other (send : String → World α → Option GoError × World α)

/-- The interface method `Send`, dispatched on the dynamic type. -/
def Notifier.Send {α : Type} : Notifier α → String → World α → Option GoError × World α
  | .email e, message, w => e.Send message w
  | .sms s, message, w => s.Send message w
  | .other send, message, w => send message w

/-- The struct `NotificationService`. -/
structure NotificationService (α : Type) where
  notifier : Notifier α

/-- The constructor function `NewNotificationService`. -/
def NewNotificationService {α : Type} (notifier : Notifier α) : NotificationService α :=
  { notifier := notifier }

/-- The method `(s *NotificationService) Notify`. -/
def NotificationService.Notify {α : Type} (s : NotificationService α) (message : String)
    (w : World α) : Option GoError × World α :=
  s.notifier.Send message w

/-- The function `main`; the result of `Notify` is discarded. -/
def main {α : Type} (w : World α) : World α :=
  let email : Email := { recipient := "acetina@example.com" }
  let service := NewNotificationService (Notifier.email email)
  (service.Notify "Hello!" w).2

end Dependency

/-! ## `src/factory-method/main.go` -/

namespace FactoryMethod

/-- The struct `EmailNotifier`. -/
structure EmailNotifier where
  recipient : String
deriving DecidableEq, Repr

/-- The struct `SMSNotifier`. -/
structure SMSNotifier where
  phoneNumber : String
deriving DecidableEq, Repr

/-- The struct `PushNotifier`. -/
structure PushNotifier where
  deviceID : String
deriving DecidableEq, Repr

/-- The method `(e *EmailNotifier) Send`. -/
def EmailNotifier.Send {α : Type} (e : EmailNotifier) (message : String) (w : World α) :
    Option GoError × World α :=
  (none, fmt.Printf "Sending email with message: %s, %s\n" [e.recipient, message] w)

/-- The method `(s *SMSNotifier) Send`. -/
def SMSNotifier.Send {α : Type} (s : SMSNotifier) (message : String) (w : World α) :
    Option GoError × World α :=
  (none, fmt.Printf "Sending SMS with message: %s, %s\n" [s.phoneNumber, message] w)

/-- The method `(p *PushNotifier) Send`. -/
def PushNotifier.Send {α : Type} (p : PushNotifier) (message : String) (w : World α) :
    Option GoError × World α :=
  (none, fmt.Printf "Sending push notification with message: %s, %s\n" [p.deviceID, message] w)

/-- A non-nil value of the interface `Notifier`: a pointer to one of the three
notifier structs, or any other implementation, given by its `Send`. -/
inductive Notifier (α : Type) where
  | email (e : EmailNotifier)
  | sms (s : SMSNotifier)
  | push (p : PushNotifier)
  | other (send : String → World α → Option GoError × World α)

/-- The interface method `Send`, dispatched on the dynamic type. -/
def Notifier.Send {α : Type} : Notifier α → String → World α → Option GoError × World α
  | .email e, message, w => e.Send message w
  | .sms s, message, w => s.Send message w
  | .push p, message, w => p.Send message w
  | .other send, message, w => send message w

/-- The struct `EmailFactory`. -/
structure EmailFactory where
  recipient : String
deriving DecidableEq, Repr

/-- The struct `SMSFactory`. -/
structure SMSFactory where
  phoneNumber : String
deriving DecidableEq, Repr

/-- The struct `PushFactory`. -/
structure PushFactory where
  deviceID : String
deriving DecidableEq, Repr

/-- The method `(f *EmailFactory) CreateNotifier`. -/
def EmailFactory.CreateNotifier {α : Type} (f : EmailFactory) : Notifier α :=
  .email { recipient := f.recipient }

/-- The method `(f *SMSFactory) CreateNotifier`. -/
def SMSFactory.CreateNotifier {α : Type} (f : SMSFactory) : Notifier α :=
  .sms { phoneNumber := f.phoneNumber }

/-- The method `(f *PushFactory) CreateNotifier`. -/
def PushFactory.CreateNotifier {α : Type} (f : PushFactory) : Notifier α :=
  .push { deviceID := f.deviceID }

/-- A non-nil value of the interface `NotificationFactory`: a pointer to one
of the three factory structs, or any other implementation, given by its
`CreateNotifier`, which may act on the state. -/
inductive NotificationFactory (α : Type) where
  | email (f : EmailFactory)
  | sms (f : SMSFactory)
  | push (f : PushFactory)
  | other (create : World α → Notifier α × World α)

/-- The interface method `CreateNotifier`, dispatched on the dynamic type. -/
def NotificationFactory.CreateNotifier {α : Type} :
    NotificationFactory α → World α → Notifier α × World α
  | .email f, w => (f.CreateNotifier, w)
  | .sms f, w => (f.CreateNotifier, w)
  | .push f, w => (f.CreateNotifier, w)
  | .other create, w => create w

/-- The function `GetNotificationFactory`: the factory (`none` for the nil
interface) and the error (`none` for the nil error). -/
def GetNotificationFactory (α : Type) (notificationType destination : String) :
    Option (NotificationFactory α) × Option GoError :=
  if notificationType = "email" then
    (some (.email { recipient := destination }), none)
  else if notificationType = "sms" then
    (some (.sms { phoneNumber := destination }), none)
  else if notificationType = "push" then
    (some (.push { deviceID := destination }), none)
  else
    (none, some (fmt.Errorf "unknown notification type: %s" [notificationType]))

/-- The struct `NotificationService`. -/
structure NotificationService (α : Type) where
  factory : NotificationFactory α

/-- The constructor function `NewNotificationService`. -/
def NewNotificationService {α : Type} (factory : NotificationFactory α) :
    NotificationService α :=
  { factory := factory }

/-- The method `(s *NotificationService) Notify`. -/
def NotificationService.Notify {α : Type} (s : NotificationService α) (message : String)
    (w : World α) : Option GoError × World α :=
  let created := s.factory.CreateNotifier w
  let notifier := created.1
  notifier.Send message created.2

/-- The statement `if err := service.Notify(m); err != nil { fmt.Println("Error:", err) }`
that `main` uses at each of its call sites. -/
def notifyAndReport {α : Type} (service : NotificationService α) (message : String)
    (w : World α) : World α :=
  let r := service.Notify message w
  match r.1 with
  | some err => fmt.Println ["Error:", err.Error] r.2
  | none => r.2

/-- An element of the slice `preferences` of `main`. -/
structure Preference where
  notificationType : String
  destination : String
  message : String
deriving DecidableEq, Repr

/-- The body of the loop `for _, pref := range preferences` of `main`: the
error of `GetNotificationFactory` is assigned to the blank identifier, and the
service is built and used only when the factory is not nil. -/
def preferenceStep {α : Type} (w : World α) (pref : Preference) : World α :=
  let r := GetNotificationFactory α pref.notificationType pref.destination
  match r.1 with
  | some factory =>
    let service := NewNotificationService factory
    notifyAndReport service pref.message w
  | none => w

/-- The loop `for _, pref := range preferences` of `main`, with the slice as
a parameter. -/
def runPreferences {α : Type} (preferences : List Preference) (w : World α) : World α :=
  preferences.foldl preferenceStep w

/-- The function `main`. -/
def main {α : Type} (w : World α) : World α :=
  let emailFactory : EmailFactory := { recipient := "usuario@example.com" }
  let emailService := NewNotificationService (NotificationFactory.email emailFactory)
  let w := notifyAndReport emailService "Hello via Email!" w
  let smsFactory : SMSFactory := { phoneNumber := "+1234567890" }
  let smsFactoryService := NewNotificationService (NotificationFactory.sms smsFactory)
  let w := notifyAndReport smsFactoryService "Hello via SMS!" w
  let pushFactory : PushFactory := { deviceID := "device123" }
  let pushService := NewNotificationService (NotificationFactory.push pushFactory)
  let w := notifyAndReport pushService "Hello via Push Notification!" w
  let preferences : List Preference := [
    ⟨"email", "admin@example.com", "System Alert via Email!"⟩,
    ⟨"sms", "+1987654321", "System Alert via SMS!"⟩,
    ⟨"push", "device456", "System Alert via Push Notification!"⟩]
  runPreferences preferences w

/-! ### An instrumented test double

The call log of a counting double for `NotificationFactory`: how many times
`CreateNotifier` was called, and every `Send` call as the pair of the serial
number of the notifier it was made on and the message it was given. -/

/-- The counters of the instrumented double. -/
structure CallLog where
  /-- Number of `CreateNotifier` calls so far. -/
  created : Nat
  /-- The `Send` calls so far: serial number of the receiving notifier, message. -/
  sent : List (Nat × String)
deriving DecidableEq, Repr

/-- A notifier double: it records the call, with the serial number `serial`
it was created under, and then behaves as the notifier `n` it wraps. -/
def spyNotifier {α : Type} (serial : Nat) (n : Notifier α) : Notifier (α × CallLog) :=
  .other fun message w =>
    let log : CallLog := { w.ext.2 with sent := w.ext.2.sent ++ [(serial, message)] }
    let r := n.Send message w.lower
    (r.1, r.2.lift log)

/-- A factory double: `CreateNotifier` counts the call, asks the factory `f`
it wraps for a notifier, and returns that notifier wrapped in a notifier
double whose serial number is the number of earlier `CreateNotifier` calls. -/
def spyFactory {α : Type} (f : NotificationFactory α) : NotificationFactory (α × CallLog) :=
  .other fun w =>
    let log : CallLog := { w.ext.2 with created := w.ext.2.created + 1 }
    let r := f.CreateNotifier w.lower
    (spyNotifier w.ext.2.created r.1, r.2.lift log)

end FactoryMethod

/-! ## Formatting lemmas -/

theorem Sprintf_email (d m : String) :
    fmt.Sprintf "Sending email with message: %s, %s\n" [d, m]
      = "Sending email with message: " ++ d ++ ", " ++ m ++ "\n" := by
  apply String.ext
  simp [fmt.Sprintf, fmt.format]

theorem Sprintf_sms (d m : String) :
    fmt.Sprintf "Sending SMS with message: %s, %s\n" [d, m]
      = "Sending SMS with message: " ++ d ++ ", " ++ m ++ "\n" := by
  apply String.ext
  simp [fmt.Sprintf, fmt.format]

theorem Sprintf_push (d m : String) :
    fmt.Sprintf "Sending push notification with message: %s, %s\n" [d, m]
      = "Sending push notification with message: " ++ d ++ ", " ++ m ++ "\n" := by
  apply String.ext
  simp [fmt.Sprintf, fmt.format]

theorem Sprintf_unknown (k : String) :
    fmt.Sprintf "unknown notification type: %s" [k] = "unknown notification type: " ++ k := by
  apply String.ext
  simp [fmt.Sprintf, fmt.format]

theorem occursIn_middle (a s b : String) : occursIn s (a ++ s ++ b) := by
  unfold occursIn
  exact ⟨a.data, b.data, by simp [String.data_append]⟩

/-! ## Evaluation lemmas -/

namespace FactoryMethod

theorem get_email (α : Type) (dest : String) :
    GetNotificationFactory α "email" dest = (some (.email (EmailFactory.mk dest)), none) := by
  simp [GetNotificationFactory]

theorem get_sms (α : Type) (dest : String) :
    GetNotificationFactory α "sms" dest = (some (.sms (SMSFactory.mk dest)), none) := by
  simp [GetNotificationFactory]

theorem get_push (α : Type) (dest : String) :
    GetNotificationFactory α "push" dest = (some (.push (PushFactory.mk dest)), none) := by
  simp [GetNotificationFactory]

theorem notify_email {α : Type} (dest msg : String) (w : World α) :
    (NewNotificationService (NotificationFactory.email (EmailFactory.mk dest))).Notify msg w
      = (none, ⟨w.stdout ++ ["Sending email with message: " ++ dest ++ ", " ++ msg ++ "\n"],
          w.ext⟩) := by
  simp [NewNotificationService, NotificationService.Notify,
    NotificationFactory.CreateNotifier, EmailFactory.CreateNotifier, Notifier.Send,
    EmailNotifier.Send, fmt.Printf, Sprintf_email]

theorem notify_sms {α : Type} (dest msg : String) (w : World α) :
    (NewNotificationService (NotificationFactory.sms (SMSFactory.mk dest))).Notify msg w
      = (none, ⟨w.stdout ++ ["Sending SMS with message: " ++ dest ++ ", " ++ msg ++ "\n"],
          w.ext⟩) := by
  simp [NewNotificationService, NotificationService.Notify,
    NotificationFactory.CreateNotifier, SMSFactory.CreateNotifier, Notifier.Send,
    SMSNotifier.Send, fmt.Printf, Sprintf_sms]

theorem notify_push {α : Type} (dest msg : String) (w : World α) :
    (NewNotificationService (NotificationFactory.push (PushFactory.mk dest))).Notify msg w
      = (none, ⟨w.stdout ++
          ["Sending push notification with message: " ++ dest ++ ", " ++ msg ++ "\n"],
          w.ext⟩) := by
  simp [NewNotificationService, NotificationService.Notify,
    NotificationFactory.CreateNotifier, PushFactory.CreateNotifier, Notifier.Send,
    PushNotifier.Send, fmt.Printf, Sprintf_push]

end FactoryMethod

namespace Dependency

theorem di_notify_email {α : Type} (dest msg : String) (w : World α) :
    (NewNotificationService (Notifier.email (Email.mk dest))).Notify msg w
      = (none, ⟨w.stdout ++ ["Sending email with message: " ++ dest ++ ", " ++ msg ++ "\n"],
          w.ext⟩) := by
  simp [NewNotificationService, NotificationService.Notify, Notifier.Send, Email.Send,
    fmt.Printf, Sprintf_email]

theorem di_notify_sms {α : Type} (dest msg : String) (w : World α) :
    (NewNotificationService (Notifier.sms (SMS.mk dest))).Notify msg w
      = (none, ⟨w.stdout ++ ["Sending SMS with message: " ++ dest ++ ", " ++ msg ++ "\n"],
          w.ext⟩) := by
  simp [NewNotificationService, NotificationService.Notify, Notifier.Send, SMS.Send,
    fmt.Printf, Sprintf_sms]

end Dependency

/-! ## The factory selector -/

namespace FactoryMethod

/-- C1: for every destination `dest`, `GetNotificationFactory` on each of the
tokens "email", "sms", "push" returns the nil error and a non-nil factory of
the matching variant holding `dest`; `CreateNotifier` on that factory returns
the notifier of the matching variant whose destination field is `dest`
itself, and leaves the state as it was.  Nothing is assumed of `dest`, so the
empty string is included. -/
theorem GetNotificationFactory_recognized (α : Type) (dest : String) (w : World α) :
    (GetNotificationFactory α "email" dest = (some (.email (EmailFactory.mk dest)), none)
      ∧ (NotificationFactory.email (EmailFactory.mk dest)).CreateNotifier w
          = (.email (EmailNotifier.mk dest), w)
      ∧ (EmailNotifier.mk dest).recipient = dest)
    ∧ (GetNotificationFactory α "sms" dest = (some (.sms (SMSFactory.mk dest)), none)
      ∧ (NotificationFactory.sms (SMSFactory.mk dest)).CreateNotifier w
          = (.sms (SMSNotifier.mk dest), w)
      ∧ (SMSNotifier.mk dest).phoneNumber = dest)
    ∧ (GetNotificationFactory α "push" dest = (some (.push (PushFactory.mk dest)), none)
      ∧ (NotificationFactory.push (PushFactory.mk dest)).CreateNotifier w
          = (.push (PushNotifier.mk dest), w)
      ∧ (PushNotifier.mk dest).deviceID = dest) := by
  exact ⟨⟨get_email α dest, rfl, rfl⟩, ⟨get_sms α dest, rfl, rfl⟩, ⟨get_push α dest, rfl, rfl⟩⟩

/-- C2: `GetNotificationFactory` returns an error together with no factory
exactly when the token is none of "email", "sms", "push"; otherwise it
returns a factory and the nil error, so an error and a factory never come
together and no token falls back to a default factory.  The comparison is
exact: "Email", "SMS", the empty string, "email " and "carrier-pigeon" all
fail. -/
theorem GetNotificationFactory_error_iff (α : Type) (token dest : String) :
    (((GetNotificationFactory α token dest).2 ≠ none
        ∧ (GetNotificationFactory α token dest).1 = none)
      ↔ ¬ (token = "email" ∨ token = "sms" ∨ token = "push"))
    ∧ (((GetNotificationFactory α token dest).2 = none
        ∧ (GetNotificationFactory α token dest).1 ≠ none)
      ↔ (token = "email" ∨ token = "sms" ∨ token = "push"))
    ∧ (∀ t ∈ ["Email", "SMS", "", "email ", "carrier-pigeon"],
        (GetNotificationFactory α t dest).2 ≠ none
          ∧ (GetNotificationFactory α t dest).1 = none) := by
  refine ⟨?_, ?_, ?_⟩
  · unfold GetNotificationFactory
    split_ifs <;> simp [*]
  · unfold GetNotificationFactory
    split_ifs <;> simp [*]
  · intro t ht
    simp only [List.mem_cons, List.mem_singleton, List.not_mem_nil, or_false] at ht
    rcases ht with rfl | rfl | rfl | rfl | rfl <;>
      simp [GetNotificationFactory]

/-- Witness for C2 at the token "Email", which differs from "email" by case
only. -/
theorem GetNotificationFactory_error_iff_witness :
    (GetNotificationFactory Unit "Email" "a@b.c").2 ≠ none
    ∧ (GetNotificationFactory Unit "Email" "a@b.c").1 = none :=
  (GetNotificationFactory_error_iff Unit "Email" "a@b.c").2.2 "Email" (by simp)

/-- C3: for a token `k` that is none of "email", "sms", "push", the error of
`GetNotificationFactory k dest` has exactly the text
"unknown notification type: " followed by `k`; it is the same for every
destination; and `k` is recovered from it by dropping the fixed opening
text, so two unrecognized tokens with the same error are equal. -/
theorem GetNotificationFactory_error_text (α : Type) (k dest : String)
    (hk : k ≠ "email" ∧ k ≠ "sms" ∧ k ≠ "push") :
    (GetNotificationFactory α k dest).2 = some ⟨"unknown notification type: " ++ k⟩
    ∧ (∀ dest2 : String,
        (GetNotificationFactory α k dest2).2 = (GetNotificationFactory α k dest).2)
    ∧ (∀ e : GoError, (GetNotificationFactory α k dest).2 = some e →
        String.mk (e.Error.data.drop "unknown notification type: ".length) = k)
    ∧ (∀ k2 : String, (k2 ≠ "email" ∧ k2 ≠ "sms" ∧ k2 ≠ "push") →
        (GetNotificationFactory α k2 dest).2 = (GetNotificationFactory α k dest).2 →
        k2 = k) := by
  obtain ⟨h1, h2, h3⟩ := hk
  have key : ∀ (t d : String), t ≠ "email" → t ≠ "sms" → t ≠ "push" →
      (GetNotificationFactory α t d).2 = some ⟨"unknown notification type: " ++ t⟩ := by
    intro t d a b c
    simp [GetNotificationFactory, a, b, c, fmt.Errorf, Sprintf_unknown]
  refine ⟨key k dest h1 h2 h3, ?_, ?_, ?_⟩
  · intro dest2
    rw [key k dest2 h1 h2 h3, key k dest h1 h2 h3]
  · intro e he
    rw [key k dest h1 h2 h3] at he
    cases he
    apply String.ext
    simp [String.data_append, String.length]
  · intro k2 ⟨a, b, c⟩ heq
    rw [key k2 dest a b c, key k dest h1 h2 h3] at heq
    simp only [Option.some.injEq, GoError.mk.injEq] at heq
    have := congrArg String.data heq
    simp only [String.data_append, List.append_cancel_left_eq] at this
    exact String.ext this

/-- Witness for C3 at the token "carrier-pigeon". -/
theorem GetNotificationFactory_error_text_witness :
    ("carrier-pigeon" ≠ "email" ∧ "carrier-pigeon" ≠ "sms" ∧ "carrier-pigeon" ≠ "push")
    ∧ (GetNotificationFactory Unit "carrier-pigeon" "coop").2
        = some ⟨"unknown notification type: carrier-pigeon"⟩ :=
  ⟨by decide,
    (GetNotificationFactory_error_text Unit "carrier-pigeon" "coop" (by decide)).1.trans
      (by decide)⟩

end FactoryMethod

/-! ## The services -/

namespace FactoryMethod

/-- C4: for every factory `f` and message `msg`, one call of `Notify(msg)` on
the service `NewNotificationService(f)` is exactly one call of
`f.CreateNotifier()` followed by exactly one call of `Send(msg)` on the
notifier that call returned: result and state of `Notify` are the result and
state of that sequence, in every state.  Observed through the counting double
of `f`: the call raises the count of `CreateNotifier` calls by exactly one and
adds exactly one entry to the record of `Send` calls, the message `msg`
received by the notifier whose serial number is that of this very
`CreateNotifier` call; and the result and the rest of the state of the
instrumented run are those of `Notify(msg)` on the service around `f`
itself. -/
theorem Notify_creates_once_sends_once (α : Type) (f : NotificationFactory α) (msg : String)
    (w : World (α × CallLog)) :
    (∀ v : World α, (NewNotificationService f).Notify msg v
        = (f.CreateNotifier v).1.Send msg (f.CreateNotifier v).2)
    ∧ ((NewNotificationService (spyFactory f)).Notify msg w).2.ext.2.created
        = w.ext.2.created + 1
    ∧ ((NewNotificationService (spyFactory f)).Notify msg w).2.ext.2.sent
        = w.ext.2.sent ++ [(w.ext.2.created, msg)]
    ∧ ((NewNotificationService (spyFactory f)).Notify msg w).1
        = ((f.CreateNotifier w.lower).1.Send msg (f.CreateNotifier w.lower).2).1
    ∧ ((NewNotificationService (spyFactory f)).Notify msg w).2.lower
        = ((f.CreateNotifier w.lower).1.Send msg (f.CreateNotifier w.lower).2).2
    ∧ ((NewNotificationService (spyFactory f)).Notify msg w).1
        = ((NewNotificationService f).Notify msg w.lower).1
    ∧ ((NewNotificationService (spyFactory f)).Notify msg w).2.lower
        = ((NewNotificationService f).Notify msg w.lower).2 := by
  refine ⟨fun _ => rfl, ?_⟩
  simp [NewNotificationService, NotificationService.Notify, spyFactory, spyNotifier,
    NotificationFactory.CreateNotifier, Notifier.Send, World.lower, World.lift]

end FactoryMethod

namespace Dependency

/-- C5: for every destination and message, `Notify(msg)` on the service that
`NewNotificationService` builds around an `Email` or an `SMS` returns the nil
error and is exactly the one call `Send(msg)` on the injected notifier:
standard output grows by the single line that `Send` writes and nothing else
changes. -/
theorem Notify_injected_succeeds (α : Type) (dest msg : String) (w : World α) :
    ((NewNotificationService (Notifier.email (Email.mk dest))).Notify msg w
        = (none, ⟨w.stdout ++ ["Sending email with message: " ++ dest ++ ", " ++ msg ++ "\n"],
            w.ext⟩)
      ∧ (NewNotificationService (Notifier.email (Email.mk dest))).Notify msg w
        = (Email.mk dest).Send msg w)
    ∧ ((NewNotificationService (Notifier.sms (SMS.mk dest))).Notify msg w
        = (none, ⟨w.stdout ++ ["Sending SMS with message: " ++ dest ++ ", " ++ msg ++ "\n"],
            w.ext⟩)
      ∧ (NewNotificationService (Notifier.sms (SMS.mk dest))).Notify msg w
        = (SMS.mk dest).Send msg w) := by
  exact ⟨⟨di_notify_email dest msg w, rfl⟩, ⟨di_notify_sms dest msg w, rfl⟩⟩

end Dependency

/-- C6: both services hand back the collaborator's result unchanged.  The
service of the dependency-injection example returns exactly what
`n.Send(msg)` returns, for every notifier `n`; the service of the
factory-method example returns exactly what `f.CreateNotifier().Send(msg)`
returns, for every factory `f`; the state after the call is the collaborator's
too, so the service writes nothing of its own.  A collaborator that fails
with an error `e` makes `Notify` return that same `e`. -/
theorem Notify_propagates_result (α : Type) (msg : String) (w : World α) :
    (∀ n : Dependency.Notifier α,
        (Dependency.NewNotificationService n).Notify msg w = n.Send msg w)
    ∧ (∀ f : FactoryMethod.NotificationFactory α,
        (FactoryMethod.NewNotificationService f).Notify msg w
          = (f.CreateNotifier w).1.Send msg (f.CreateNotifier w).2)
    ∧ (∀ e : GoError,
        (Dependency.NewNotificationService
            (Dependency.Notifier.other fun _ v => (some e, v))).Notify msg w
          = (some e, w))
    ∧ (∀ e : GoError,
        (FactoryMethod.NewNotificationService
            (FactoryMethod.NotificationFactory.other fun v =>
              (FactoryMethod.Notifier.other fun _ u => (some e, u), v))).Notify msg w
          = (some e, w)) :=
  ⟨fun _ => rfl, fun _ => rfl, fun _ => rfl, fun _ => rfl⟩

namespace FactoryMethod

/-- C7: end to end, for each of the tokens "email", "sms", "push", every
destination and every message: `GetNotificationFactory` returns a factory and
the nil error, and `Notify(msg)` on the service built around that factory
returns the nil error and makes exactly one write to standard output, the
text "Sending <type> with message: <dest>, <msg>" followed by a newline, with
<type> being "email", "SMS", "push notification".  The text written contains
both the destination and the message.  For token "sms", destination
"+1234567890" and message "Hello" the write is
"Sending SMS with message: +1234567890, Hello" and a newline. -/
theorem Notify_end_to_end (α : Type) (dest msg : String) (w : World α) :
    (∃ f, GetNotificationFactory α "email" dest = (some f, none)
      ∧ (NewNotificationService f).Notify msg w
        = (none, ⟨w.stdout ++ ["Sending email with message: " ++ dest ++ ", " ++ msg ++ "\n"],
            w.ext⟩))
    ∧ (∃ f, GetNotificationFactory α "sms" dest = (some f, none)
      ∧ (NewNotificationService f).Notify msg w
        = (none, ⟨w.stdout ++ ["Sending SMS with message: " ++ dest ++ ", " ++ msg ++ "\n"],
            w.ext⟩))
    ∧ (∃ f, GetNotificationFactory α "push" dest = (some f, none)
      ∧ (NewNotificationService f).Notify msg w
        = (none, ⟨w.stdout ++
            ["Sending push notification with message: " ++ dest ++ ", " ++ msg ++ "\n"],
            w.ext⟩))
    ∧ (occursIn dest ("Sending email with message: " ++ dest ++ ", " ++ msg ++ "\n")
      ∧ occursIn msg ("Sending email with message: " ++ dest ++ ", " ++ msg ++ "\n"))
    ∧ (occursIn dest ("Sending SMS with message: " ++ dest ++ ", " ++ msg ++ "\n")
      ∧ occursIn msg ("Sending SMS with message: " ++ dest ++ ", " ++ msg ++ "\n"))
    ∧ (occursIn dest ("Sending push notification with message: " ++ dest ++ ", " ++ msg ++ "\n")
      ∧ occursIn msg
          ("Sending push notification with message: " ++ dest ++ ", " ++ msg ++ "\n"))
    ∧ (∃ f, GetNotificationFactory α "sms" "+1234567890" = (some f, none)
      ∧ (NewNotificationService f).Notify "Hello" w
        = (none, ⟨w.stdout ++ ["Sending SMS with message: +1234567890, Hello\n"], w.ext⟩)
      ∧ occursIn "+1234567890" "Sending SMS with message: +1234567890, Hello\n"
      ∧ occursIn "Hello" "Sending SMS with message: +1234567890, Hello\n") := by
  have hd : ∀ a b : String, occursIn dest (a ++ dest ++ ", " ++ msg ++ b) := by
    intro a b
    have := occursIn_middle a dest (", " ++ msg ++ b)
    simpa [String.append_assoc] using this
  have hm : ∀ a b : String, occursIn msg (a ++ dest ++ ", " ++ msg ++ b) := by
    intro a b
    exact occursIn_middle (a ++ dest ++ ", ") msg b
  refine ⟨⟨_, get_email α dest, notify_email dest msg w⟩, ⟨_, get_sms α dest, notify_sms dest msg w⟩,
    ⟨_, get_push α dest, notify_push dest msg w⟩, ⟨hd _ _, hm _ _⟩, ⟨hd _ _, hm _ _⟩,
    ⟨hd _ _, hm _ _⟩, ⟨_, get_sms α "+1234567890", ?_, by decide, by decide⟩⟩
  exact (notify_sms "+1234567890" "Hello" w).trans (by congr 3)

end FactoryMethod

/-- C8: no caching and no deduplication.  For each service of either example
built over the repository's own notifiers and factories, and every message,
one call of `Notify(msg)` returns the nil error and adds one write to
standard output; a second call right after it, on the same service, returns
the nil error again and adds the same write once more, so the output of the
two calls is the one-call line twice.  Nothing else of the state changes, and
the service holds the collaborator it was built with. -/
theorem Notify_twice_sends_twice (α : Type) (dest msg : String) (w : World α) :
    ((Dependency.NewNotificationService (Dependency.Notifier.email ⟨dest⟩)).Notify msg w
        = (none, ⟨w.stdout ++ ["Sending email with message: " ++ dest ++ ", " ++ msg ++ "\n"],
            w.ext⟩)
      ∧ (Dependency.NewNotificationService (Dependency.Notifier.email ⟨dest⟩)).Notify msg
          ((Dependency.NewNotificationService (Dependency.Notifier.email ⟨dest⟩)).Notify msg w).2
        = (none, ⟨w.stdout ++ ["Sending email with message: " ++ dest ++ ", " ++ msg ++ "\n",
            "Sending email with message: " ++ dest ++ ", " ++ msg ++ "\n"], w.ext⟩))
    ∧ ((Dependency.NewNotificationService (Dependency.Notifier.sms ⟨dest⟩)).Notify msg w
        = (none, ⟨w.stdout ++ ["Sending SMS with message: " ++ dest ++ ", " ++ msg ++ "\n"],
            w.ext⟩)
      ∧ (Dependency.NewNotificationService (Dependency.Notifier.sms ⟨dest⟩)).Notify msg
          ((Dependency.NewNotificationService (Dependency.Notifier.sms ⟨dest⟩)).Notify msg w).2
        = (none, ⟨w.stdout ++ ["Sending SMS with message: " ++ dest ++ ", " ++ msg ++ "\n",
            "Sending SMS with message: " ++ dest ++ ", " ++ msg ++ "\n"], w.ext⟩))
    ∧ ((FactoryMethod.NewNotificationService
          (FactoryMethod.NotificationFactory.email ⟨dest⟩)).Notify msg w
        = (none, ⟨w.stdout ++ ["Sending email with message: " ++ dest ++ ", " ++ msg ++ "\n"],
            w.ext⟩)
      ∧ (FactoryMethod.NewNotificationService
          (FactoryMethod.NotificationFactory.email ⟨dest⟩)).Notify msg
          ((FactoryMethod.NewNotificationService
            (FactoryMethod.NotificationFactory.email ⟨dest⟩)).Notify msg w).2
        = (none, ⟨w.stdout ++ ["Sending email with message: " ++ dest ++ ", " ++ msg ++ "\n",
            "Sending email with message: " ++ dest ++ ", " ++ msg ++ "\n"], w.ext⟩))
    ∧ ((FactoryMethod.NewNotificationService
          (FactoryMethod.NotificationFactory.sms ⟨dest⟩)).Notify msg w
        = (none, ⟨w.stdout ++ ["Sending SMS with message: " ++ dest ++ ", " ++ msg ++ "\n"],
            w.ext⟩)
      ∧ (FactoryMethod.NewNotificationService
          (FactoryMethod.NotificationFactory.sms ⟨dest⟩)).Notify msg
          ((FactoryMethod.NewNotificationService
            (FactoryMethod.NotificationFactory.sms ⟨dest⟩)).Notify msg w).2
        = (none, ⟨w.stdout ++ ["Sending SMS with message: " ++ dest ++ ", " ++ msg ++ "\n",
            "Sending SMS with message: " ++ dest ++ ", " ++ msg ++ "\n"], w.ext⟩))
    ∧ ((FactoryMethod.NewNotificationService
          (FactoryMethod.NotificationFactory.push ⟨dest⟩)).Notify msg w
        = (none, ⟨w.stdout ++
            ["Sending push notification with message: " ++ dest ++ ", " ++ msg ++ "\n"],
            w.ext⟩)
      ∧ (FactoryMethod.NewNotificationService
          (FactoryMethod.NotificationFactory.push ⟨dest⟩)).Notify msg
          ((FactoryMethod.NewNotificationService
            (FactoryMethod.NotificationFactory.push ⟨dest⟩)).Notify msg w).2
        = (none, ⟨w.stdout ++
            ["Sending push notification with message: " ++ dest ++ ", " ++ msg ++ "\n",
             "Sending push notification with message: " ++ dest ++ ", " ++ msg ++ "\n"],
            w.ext⟩))
    ∧ (∀ n : Dependency.Notifier α, (Dependency.NewNotificationService n).notifier = n)
    ∧ (∀ f : FactoryMethod.NotificationFactory α,
        (FactoryMethod.NewNotificationService f).factory = f) := by
  refine ⟨⟨Dependency.di_notify_email dest msg w, ?_⟩, ⟨Dependency.di_notify_sms dest msg w, ?_⟩,
    ⟨FactoryMethod.notify_email dest msg w, ?_⟩, ⟨FactoryMethod.notify_sms dest msg w, ?_⟩,
    ⟨FactoryMethod.notify_push dest msg w, ?_⟩, fun _ => rfl, fun _ => rfl⟩
  · rw [Dependency.di_notify_email dest msg w, Dependency.di_notify_email]
    simp
  · rw [Dependency.di_notify_sms dest msg w, Dependency.di_notify_sms]
    simp
  · rw [FactoryMethod.notify_email dest msg w, FactoryMethod.notify_email]
    simp
  · rw [FactoryMethod.notify_sms dest msg w, FactoryMethod.notify_sms]
    simp
  · rw [FactoryMethod.notify_push dest msg w, FactoryMethod.notify_push]
    simp

/-! ## The preference loop of `main` -/

namespace FactoryMethod

/-- C9, as the claim states it, fails: on the preferences
("carrier-pigeon", "coop", "hi") and ("sms", "+1", "yo"), starting from empty
output, the selector does return the unknown-type error for the first
preference, but the loop writes only the line of the second one; no write
mentions the unknown type. -/
theorem runPreferences_unknown_not_logged :
    (GetNotificationFactory Unit "carrier-pigeon" "coop").2
        = some ⟨"unknown notification type: carrier-pigeon"⟩
    ∧ runPreferences [⟨"carrier-pigeon", "coop", "hi"⟩, ⟨"sms", "+1", "yo"⟩]
          (⟨[], ()⟩ : World Unit)
        = ⟨["Sending SMS with message: +1, yo\n"], ()⟩
    ∧ ∀ line ∈ (runPreferences [⟨"carrier-pigeon", "coop", "hi"⟩, ⟨"sms", "+1", "yo"⟩]
          (⟨[], ()⟩ : World Unit)).stdout,
        ¬ occursIn "unknown notification type" line := by
  decide

/-- C9, amended: a preference whose type is none of "email", "sms", "push" is
skipped in silence: the selector's error is dropped, nothing is written for
that preference, and the loop goes on with the remaining preferences.  The
run over the whole list is the run over the preferences after it started from
the state the preferences before it left, and standard output grows by
exactly the `Send` lines of the preferences of a recognized type, in order,
so every recognized preference before or after the skipped one has its
line. -/
theorem runPreferences_skips_unknown (α : Type) (before after : List Preference)
    (bad : Preference) (w : World α)
    (hbad : bad.notificationType ≠ "email" ∧ bad.notificationType ≠ "sms"
      ∧ bad.notificationType ≠ "push") :
    runPreferences [bad] w = w
    ∧ runPreferences (before ++ bad :: after) w
        = runPreferences after (runPreferences before w)
    ∧ runPreferences (before ++ bad :: after) w
        = ⟨w.stdout ++ (before ++ after).filterMap (fun p =>
            if p.notificationType = "email" then
              some ("Sending email with message: " ++ p.destination ++ ", " ++ p.message
                ++ "\n")
            else if p.notificationType = "sms" then
              some ("Sending SMS with message: " ++ p.destination ++ ", " ++ p.message
                ++ "\n")
            else if p.notificationType = "push" then
              some ("Sending push notification with message: " ++ p.destination ++ ", "
                ++ p.message ++ "\n")
            else none), w.ext⟩ := by
  obtain ⟨h1, h2, h3⟩ := hbad
  have hskip : ∀ v : World α, preferenceStep v bad = v := by
    intro v
    simp [preferenceStep, GetNotificationFactory, h1, h2, h3]
  have hrun : ∀ (l : List Preference) (v : World α), runPreferences l v
      = ⟨v.stdout ++ l.filterMap (fun p =>
            if p.notificationType = "email" then
              some ("Sending email with message: " ++ p.destination ++ ", " ++ p.message
                ++ "\n")
            else if p.notificationType = "sms" then
              some ("Sending SMS with message: " ++ p.destination ++ ", " ++ p.message
                ++ "\n")
            else if p.notificationType = "push" then
              some ("Sending push notification with message: " ++ p.destination ++ ", "
                ++ p.message ++ "\n")
            else none), v.ext⟩ := by
    intro l
    induction l with
    | nil => intro v; simp [runPreferences]
    | cons p l ih =>
      intro v
      have hcons : runPreferences (p :: l) v = runPreferences l (preferenceStep v p) := rfl
      rw [hcons, ih]
      obtain ⟨t, d, m⟩ := p
      by_cases e1 : t = "email"
      · subst e1
        simp [preferenceStep, get_email, notifyAndReport, notify_email, List.filterMap_cons]
      · by_cases e2 : t = "sms"
        · subst e2
          simp [preferenceStep, get_sms, notifyAndReport, notify_sms, List.filterMap_cons]
        · by_cases e3 : t = "push"
          · subst e3
            simp [preferenceStep, get_push, notifyAndReport, notify_push,
              List.filterMap_cons]
          · simp [preferenceStep, GetNotificationFactory, e1, e2, e3, List.filterMap_cons]
  have hsplit : runPreferences (before ++ bad :: after) w
      = runPreferences after (runPreferences before w) := by
    simp [runPreferences, List.foldl_append, List.foldl_cons, hskip]
  refine ⟨?_, hsplit, ?_⟩
  · simp [runPreferences, hskip]
  · rw [hsplit, hrun after, hrun before]
    simp [List.filterMap_append]

/-- Witness for C9 amended: the unknown preference between two recognized
ones. -/
theorem runPreferences_skips_unknown_witness :
    (("carrier-pigeon" : String) ≠ "email" ∧ ("carrier-pigeon" : String) ≠ "sms"
      ∧ ("carrier-pigeon" : String) ≠ "push")
    ∧ runPreferences [⟨"email", "a@b.c", "one"⟩, ⟨"carrier-pigeon", "coop", "two"⟩,
          ⟨"push", "device456", "three"⟩] (⟨[], ()⟩ : World Unit)
        = ⟨["Sending email with message: a@b.c, one\n",
            "Sending push notification with message: device456, three\n"], ()⟩ :=
  ⟨by decide,
    (runPreferences_skips_unknown Unit [⟨"email", "a@b.c", "one"⟩]
      [⟨"push", "device456", "three"⟩] ⟨"carrier-pigeon", "coop", "two"⟩ ⟨[], ()⟩
      (by decide)).2.2.trans (by decide)⟩

end FactoryMethod

/-! ## The two examples side by side -/

/-- C10: for email and for SMS the two examples cannot be told apart.  For
every destination and message, `Notify(msg)` on the dependency-injection
service around `Email` and on the factory-method service around
`EmailFactory` with the same recipient, or around the factory that
`GetNotificationFactory("email", r)` returns, give the same result and the
same state: the nil error and the one write
"Sending email with message: r, msg" with a newline.  The same holds for
`SMS` and `SMSFactory`, with the token "sms". -/
theorem injected_and_factory_agree (α : Type) (r msg : String) (w : World α) :
    ((Dependency.NewNotificationService (Dependency.Notifier.email ⟨r⟩)).Notify msg w
        = (FactoryMethod.NewNotificationService
            (FactoryMethod.NotificationFactory.email ⟨r⟩)).Notify msg w
      ∧ (∃ f, FactoryMethod.GetNotificationFactory α "email" r = (some f, none)
          ∧ (FactoryMethod.NewNotificationService f).Notify msg w
            = (Dependency.NewNotificationService (Dependency.Notifier.email ⟨r⟩)).Notify msg w)
      ∧ (Dependency.NewNotificationService (Dependency.Notifier.email ⟨r⟩)).Notify msg w
        = (none, ⟨w.stdout ++ ["Sending email with message: " ++ r ++ ", " ++ msg ++ "\n"],
            w.ext⟩))
    ∧ ((Dependency.NewNotificationService (Dependency.Notifier.sms ⟨r⟩)).Notify msg w
        = (FactoryMethod.NewNotificationService
            (FactoryMethod.NotificationFactory.sms ⟨r⟩)).Notify msg w
      ∧ (∃ f, FactoryMethod.GetNotificationFactory α "sms" r = (some f, none)
          ∧ (FactoryMethod.NewNotificationService f).Notify msg w
            = (Dependency.NewNotificationService (Dependency.Notifier.sms ⟨r⟩)).Notify msg w)
      ∧ (Dependency.NewNotificationService (Dependency.Notifier.sms ⟨r⟩)).Notify msg w
        = (none, ⟨w.stdout ++ ["Sending SMS with message: " ++ r ++ ", " ++ msg ++ "\n"],
            w.ext⟩)) := by
  have e1 := Dependency.di_notify_email r msg w
  have e2 := FactoryMethod.notify_email r msg w
  have s1 := Dependency.di_notify_sms r msg w
  have s2 := FactoryMethod.notify_sms r msg w
  exact ⟨⟨e1.trans e2.symm, ⟨_, FactoryMethod.get_email α r, e2.trans e1.symm⟩, e1⟩,
    ⟨s1.trans s2.symm, ⟨_, FactoryMethod.get_sms α r, s2.trans s1.symm⟩, s1⟩⟩
